import Mathlib

/-!
Verification of the rendering/interpolation core of the solar-system API
(`app/utils/interpolation.py`, `app/services/image_generator.py`,
`app/services/video_generator.py`).

Python floats are embedded as `ℚ` (every arithmetic operation the claims
touch is exact on the inputs considered), Python `int` as `ℤ`, dicts as
structures whose fields carry the source's key names, and fallible code as
`Except String`.
-/

/-- Python `int(q)` for a real value: truncation toward zero
(`int(2.7) = 2`, `int(-2.7) = -2`).  On a rational `num/den` with
`den > 0` this is exactly T-division of the numerator by the
denominator. -/
def pyIntTrunc (q : ℚ) : ℤ := Int.tdiv q.num (q.den : ℤ)

/-- Model of `app/schemas` tag payload as stored in `full_state["people"][i]["tag"]`:
`{name, color, icon}`. -/
structure TagInfo where
  name : String
  color : String
  icon : Option String
deriving DecidableEq, Repr

/-- One entry of `full_state["people"]` (see `capture_snapshot` in
`app/services/snapshot_service.py`); only the keys read by the
interpolator and renderer are modelled, the remaining keys are copied
verbatim by every operation in the source (`{**p, ...}`) and so cannot
affect any claim.  `alpha` models the optional `"alpha"` dict key read via
`person.get("alpha", 1.0)`. -/
structure Person where
  id : String
  name : String
  x_position : ℚ
  y_position : ℚ
  tag : Option TagInfo
  alpha : Option ℚ
deriving DecidableEq, Repr

/-- Model of `person.get("alpha", 1.0)` from `image_generator.py`. -/
def alphaVal (p : Person) : ℚ := p.alpha.getD 1

/-- Model of `full_state["user"]`: `{id, name, avatar_url}`. -/
structure UserInfo where
  id : String
  name : String
deriving DecidableEq, Repr

/-- One snapshot `full_state` dict (`capture_snapshot`): the renderable
value.  `user` is `Option` to model the `state.get("user", {})` accesses
on a state missing that key. -/
structure SystemState where
  user : Option UserInfo
  people : List Person
  tags_summary : List (String × ℤ)
  total_active_people : ℤ
  snapshot_timestamp : String
deriving DecidableEq, Repr

/-- Model of `lerp` from `app/utils/interpolation.py`:
`start + (end - start) * t`. -/
def lerp (start «end» t : ℚ) : ℚ := start + («end» - start) * t

/-- Model of `ease_in_out` from `app/utils/interpolation.py`:
`t * t * (3 - 2 * t)` (Hermite smoothstep). -/
def ease_in_out (t : ℚ) : ℚ := t * t * (3 - 2 * t)

/-- Lookup in the dict `{p["id"]: p for p in people}`: a Python dict
comprehension keeps the LAST entry for a duplicated key, hence the
`reverse`. -/
def findPerson (ps : List Person) (pid : String) : Option Person :=
  ps.reverse.find? (fun p => p.id == pid)

/-- The body of the `for pid in all_ids` loop of `interpolate_snapshots`
(`app/utils/interpolation.py`): the entity the loop appends for one id,
given the two dicts `people_a`/`people_b` and the eased time. -/
def interpPerson (people_a people_b : List Person) (eased_t : ℚ) (pid : String) : Option Person :=
  match findPerson people_a pid, findPerson people_b pid with
  | some pa, some pb =>
      -- Present in both — lerp position
      some { pb with
              x_position := lerp pa.x_position pb.x_position eased_t
              y_position := lerp pa.y_position pb.y_position eased_t
              alpha := some 1 }
  | some pa, none =>
      -- Removed — fade out
      some { pa with alpha := some (1 - eased_t) }
  | none, some pb =>
      -- Added — fade in
      some { pb with alpha := some eased_t }
  | none, none => none

/-- Model of `interpolate_snapshots` from `app/utils/interpolation.py`.  The
Python iteration order over the id set `all_ids` is unspecified; we fix
the deterministic order "ids of `a` then new ids of `b`", which agrees
with the source up to permutation (no claim concerns the order of
`people`). -/
def interpolate_snapshots (snapshot_a snapshot_b : SystemState) (t : ℚ) : SystemState :=
  { snapshot_b with
      people :=
        ((snapshot_a.people.map Person.id) ++ (snapshot_b.people.map Person.id)).dedup.filterMap
          (interpPerson snapshot_a.people snapshot_b.people (ease_in_out t)) }

/-- Predicate: `a.people` has pairwise-distinct entity ids (spec §3 invariant). -/
def uniqueIds (s : SystemState) : Prop := (s.people.map Person.id).Nodup

instance (s : SystemState) : Decidable (uniqueIds s) := by
  unfold uniqueIds; infer_instance

-- ### basic lemmas about the interpolator

theorem lerp_zero (x y : ℚ) : lerp x y 0 = x := by simp [lerp]

theorem lerp_one (x y : ℚ) : lerp x y 1 = y := by simp [lerp]

theorem ease_zero : ease_in_out 0 = 0 := by norm_num [ease_in_out]

theorem ease_one : ease_in_out 1 = 1 := by norm_num [ease_in_out]

theorem findPerson_id {ps : List Person} {pid : String} {p : Person}
    (h : findPerson ps pid = some p) : p.id = pid := by
  have := List.find?_some h
  exact eq_of_beq this

theorem find_some_of_nodup {l : List Person} (hnd : (l.map Person.id).Nodup)
    {p : Person} (hp : p ∈ l) : l.find? (fun q => q.id == p.id) = some p := by
  induction l with
  | nil => cases hp
  | cons q rest ih =>
    rw [List.map_cons, List.nodup_cons] at hnd
    rw [List.find?_cons]
    by_cases hq : (q.id == p.id) = true
    · simp only [hq]
      rcases List.mem_cons.1 hp with h | h
      · rw [h]
      · exact absurd (eq_of_beq hq ▸ List.mem_map_of_mem Person.id h) hnd.1
    · rw [Bool.not_eq_true] at hq
      simp only [hq]
      rcases List.mem_cons.1 hp with h | h
      · subst h
        simp at hq
      · exact ih hnd.2 h

theorem findPerson_of_mem {s : SystemState} (hs : uniqueIds s)
    {p : Person} (hp : p ∈ s.people) : findPerson s.people p.id = some p := by
  unfold findPerson
  refine find_some_of_nodup ?_ (List.mem_reverse.2 hp)
  rw [List.map_reverse, List.nodup_reverse]
  exact hs

/-- C8: The interpolator never mutates its inputs (in this purely
functional embedding that is by construction: it builds a new record),
and the non-entity fields of its result — owner (`user`), tag tally
(`tags_summary`), active count (`total_active_people`) and timestamp
(`snapshot_timestamp`) — are exactly those of `b`, for every `a`, `b`
and `t`. -/
theorem interpolate_preserves_non_entity_fields (a b : SystemState) (t : ℚ) :
    (interpolate_snapshots a b t).user = b.user ∧
    (interpolate_snapshots a b t).tags_summary = b.tags_summary ∧
    (interpolate_snapshots a b t).total_active_people = b.total_active_people ∧
    (interpolate_snapshots a b t).snapshot_timestamp = b.snapshot_timestamp :=
  ⟨rfl, rfl, rfl, rfl⟩

/-- C10: `ease_in_out 0 = 0`, `ease_in_out 1 = 1`, and `ease_in_out` is
monotonically non-decreasing on `[0,1]`. -/
theorem ease_in_out_props :
    ease_in_out 0 = 0 ∧ ease_in_out 1 = 1 ∧
    ∀ s t : ℚ, 0 ≤ s → s ≤ t → t ≤ 1 → ease_in_out s ≤ ease_in_out t := by
  refine ⟨ease_zero, ease_one, fun s t hs hst ht1 => ?_⟩
  unfold ease_in_out
  nlinarith [sq_nonneg (t - s), sq_nonneg (t + s), mul_nonneg hs (sub_nonneg.2 hst),
    mul_nonneg (sub_nonneg.2 hst) (sub_nonneg.2 ht1),
    mul_nonneg (mul_nonneg hs (sub_nonneg.2 hst)) (sub_nonneg.2 ht1)]

/-- Witness for C10 at concrete inputs `s = 1/4`, `t = 1/2`. -/
theorem ease_in_out_props_witness :
    ease_in_out (1/4 : ℚ) ≤ ease_in_out (1/2 : ℚ) :=
  ease_in_out_props.2.2 (1/4) (1/2) (by norm_num) (by norm_num) (by norm_num)

theorem mem_interpolate_people {a b : SystemState} {t : ℚ} {p : Person} :
    p ∈ (interpolate_snapshots a b t).people ↔
      ∃ pid ∈ ((a.people.map Person.id) ++ (b.people.map Person.id)).dedup,
        interpPerson a.people b.people (ease_in_out t) pid = some p := by
  simp only [interpolate_snapshots, List.mem_filterMap]

/-- C1: `interpolate(a,b,0)` gives every entity of `a` the x,y position
it has in `a` with alpha 1, and alpha 0 to entities absent from `a`;
symmetrically `interpolate(a,b,1)` gives every entity of `b` its
position from `b` with alpha 1, and alpha 0 to entities absent from
`b` — for all valid (unique-id) states. -/
theorem interpolate_endpoints (a b : SystemState)
    (ha : uniqueIds a) (hb : uniqueIds b) :
    (∀ pa ∈ a.people, ∃ p ∈ (interpolate_snapshots a b 0).people,
        p.id = pa.id ∧ p.x_position = pa.x_position ∧ p.y_position = pa.y_position ∧
        alphaVal p = 1) ∧
    (∀ p ∈ (interpolate_snapshots a b 0).people,
        findPerson a.people p.id = none → alphaVal p = 0) ∧
    (∀ pb ∈ b.people, ∃ p ∈ (interpolate_snapshots a b 1).people,
        p.id = pb.id ∧ p.x_position = pb.x_position ∧ p.y_position = pb.y_position ∧
        alphaVal p = 1) ∧
    (∀ p ∈ (interpolate_snapshots a b 1).people,
        findPerson b.people p.id = none → alphaVal p = 0) := by
  refine ⟨?_, ?_, ?_, ?_⟩
  · intro pa hpa
    have hfa : findPerson a.people pa.id = some pa := findPerson_of_mem ha hpa
    have hid : pa.id ∈ ((a.people.map Person.id) ++ (b.people.map Person.id)).dedup :=
      List.mem_dedup.2 (List.mem_append.2 (Or.inl (List.mem_map_of_mem Person.id hpa)))
    cases hfb : findPerson b.people pa.id with
    | some pby =>
      refine ⟨{ pby with
                  x_position := lerp pa.x_position pby.x_position (ease_in_out 0)
                  y_position := lerp pa.y_position pby.y_position (ease_in_out 0)
                  alpha := some 1 },
              mem_interpolate_people.2 ⟨pa.id, hid, by
                unfold interpPerson; rw [hfa, hfb]⟩, ?_, ?_, ?_, ?_⟩
      · show pby.id = pa.id
        exact findPerson_id hfb
      · show lerp pa.x_position pby.x_position (ease_in_out 0) = pa.x_position
        rw [ease_zero, lerp_zero]
      · show lerp pa.y_position pby.y_position (ease_in_out 0) = pa.y_position
        rw [ease_zero, lerp_zero]
      · simp [alphaVal]
    | none =>
      refine ⟨{ pa with alpha := some (1 - ease_in_out 0) },
              mem_interpolate_people.2 ⟨pa.id, hid, by
                unfold interpPerson; rw [hfa, hfb]⟩, rfl, rfl, rfl, ?_⟩
      simp [alphaVal, ease_zero]
  · intro p hp habs
    obtain ⟨pid, _, hf⟩ := mem_interpolate_people.1 hp
    unfold interpPerson at hf
    cases hfa : findPerson a.people pid <;> cases hfb : findPerson b.people pid <;>
      rw [hfa, hfb] at hf
    · cases hf
    · cases hf
      · simp [alphaVal, ease_zero]
    · cases hf
      · rw [findPerson_id hfa] at habs
        rw [habs] at hfa
        cases hfa
    · cases hf
      · rw [findPerson_id hfb] at habs
        rw [habs] at hfa
        cases hfa
  · intro pb hpb
    have hfb : findPerson b.people pb.id = some pb := findPerson_of_mem hb hpb
    have hid : pb.id ∈ ((a.people.map Person.id) ++ (b.people.map Person.id)).dedup :=
      List.mem_dedup.2 (List.mem_append.2 (Or.inr (List.mem_map_of_mem Person.id hpb)))
    cases hfa : findPerson a.people pb.id with
    | some pax =>
      refine ⟨{ pb with
                  x_position := lerp pax.x_position pb.x_position (ease_in_out 1)
                  y_position := lerp pax.y_position pb.y_position (ease_in_out 1)
                  alpha := some 1 },
              mem_interpolate_people.2 ⟨pb.id, hid, by
                unfold interpPerson; rw [hfa, hfb]⟩, rfl, ?_, ?_, ?_⟩
      · show lerp pax.x_position pb.x_position (ease_in_out 1) = pb.x_position
        rw [ease_one, lerp_one]
      · show lerp pax.y_position pb.y_position (ease_in_out 1) = pb.y_position
        rw [ease_one, lerp_one]
      · simp [alphaVal]
    | none =>
      refine ⟨{ pb with alpha := some (ease_in_out 1) },
              mem_interpolate_people.2 ⟨pb.id, hid, by
                unfold interpPerson; rw [hfa, hfb]⟩, rfl, rfl, rfl, ?_⟩
      simp [alphaVal, ease_one]
  · intro p hp habs
    obtain ⟨pid, _, hf⟩ := mem_interpolate_people.1 hp
    unfold interpPerson at hf
    cases hfa : findPerson a.people pid <;> cases hfb : findPerson b.people pid <;>
      rw [hfa, hfb] at hf
    · cases hf
    · cases hf
      · rw [findPerson_id hfb] at habs
        rw [habs] at hfb
        cases hfb
    · cases hf
      · simp [alphaVal, ease_one]
    · cases hf
      · rw [findPerson_id hfb] at habs
        rw [habs] at hfb
        cases hfb

-- ### concrete demonstration states used by the witnesses

def tagFriend : TagInfo := ⟨"Friend", "4ECDC4", none⟩

def stateA : SystemState :=
  ⟨some ⟨"u1", "Ayush"⟩,
   [⟨"p1", "Riya", 1/2, 0, some tagFriend, none⟩],
   [("Friend", 1)], 1, "2024-01-01T00:00:00"⟩

def stateB : SystemState :=
  ⟨some ⟨"u1", "Ayush"⟩,
   [⟨"p1", "Riya", -1/4, 1/3, some tagFriend, none⟩,
    ⟨"p2", "Aman", 1/5, -2/5, none, none⟩],
   [("Friend", 1)], 2, "2024-01-02T00:00:00"⟩

/-- Witness for C1 at the concrete states `stateA`, `stateB`. -/
theorem interpolate_endpoints_witness :
    uniqueIds stateA ∧ uniqueIds stateB ∧
    ∀ pa ∈ stateA.people, ∃ p ∈ (interpolate_snapshots stateA stateB 0).people,
      p.id = pa.id ∧ p.x_position = pa.x_position ∧ p.y_position = pa.y_position ∧
      alphaVal p = 1 :=
  ⟨by decide, by decide,
   (interpolate_endpoints stateA stateB (by decide) (by decide)).1⟩

-- ## `app/services/image_generator.py`

/-- A hex digit as accepted by Python `int(s, 16)`. -/
def isHexDigitCh (c : Char) : Bool :=
  c.isDigit || ('a' ≤ c && c ≤ 'f') || ('A' ≤ c && c ≤ 'F')

def hexVal (c : Char) : ℕ :=
  if c.isDigit then c.toNat - '0'.toNat
  else if 'a' ≤ c then c.toNat - 'a'.toNat + 10
  else c.toNat - 'A'.toNat + 10

/-- Remaining digits of a base-16 integer literal: hex digits with single
underscores allowed between digits (Python's numeric-literal grammar). -/
def hexDigitsGo (acc : ℕ) : List Char → Option ℕ
  | [] => some acc
  | ['_'] => none
  | '_' :: c :: rest =>
      if isHexDigitCh c then hexDigitsGo (16 * acc + hexVal c) rest else none
  | c :: rest =>
      if isHexDigitCh c then hexDigitsGo (16 * acc + hexVal c) rest else none

def parseHexDigits : List Char → Option ℕ
  | [] => none
  | c :: rest => if isHexDigitCh c then hexDigitsGo (hexVal c) rest else none

/-- Python `int(s, 16)`: surrounding whitespace stripped, optional sign,
then a non-empty run of hex digits (underscores allowed between digits);
anything else raises `ValueError`. -/
def pyIntHex (s : String) : Except String ℤ :=
  let core := fun (sign : ℤ) (digits : List Char) =>
    match parseHexDigits digits with
    | some v => Except.ok (sign * (v : ℤ))
    | none => Except.error ("invalid literal for int() with base 16: " ++ s)
  match s.trim.data with
  | '+' :: rest => core 1 rest
  | '-' :: rest => core (-1) rest
  | l => core 1 l

/-- Python slice `s[a:b]`. -/
def strSlice (s : String) (a b : ℕ) : String := ⟨(s.data.drop a).take (b - a)⟩

/-- Model of `_hex_to_rgb` from `image_generator.py`: strips leading `#`, parses
the three 2-character slices as base-16 integers (each slice that fails
`int(..., 16)` raises `ValueError`, modelled as `Except.error`). -/
def hex_to_rgb (hex_color : String) : Except String (ℤ × ℤ × ℤ) := do
  let h : String := ⟨hex_color.data.dropWhile (· == '#')⟩
  let r ← pyIntHex (strSlice h 0 2)
  let g ← pyIntHex (strSlice h 2 4)
  let b ← pyIntHex (strSlice h 4 6)
  pure (r, g, b)

/-- One PIL drawing primitive issued by the renderer; a raster is fully
determined by the ordered list of primitives of each layer. -/
inductive DrawCmd where
  | ellipse (bbox : ℤ × ℤ × ℤ × ℤ) (fill : ℤ × ℤ × ℤ × ℤ)
  | ellipseOutline (bbox : ℤ × ℤ × ℤ × ℤ) (outline : ℤ × ℤ × ℤ × ℤ) (w : ℕ)
  | line (p1 p2 : ℤ × ℤ) (fill : ℤ × ℤ × ℤ × ℤ) (w : ℕ)
  | text (pos : ℤ × ℤ) (s : String) (fill : ℤ × ℤ × ℤ × ℤ) (font : String)
  | rect (p1 p2 : ℤ × ℤ) (fill : ℤ × ℤ × ℤ × ℤ)
  | overlayStrip (pos : ℤ × ℤ) (w h : ℕ) (fill : ℤ × ℤ × ℤ × ℤ)
deriving DecidableEq, Repr

/-- Model of CPython's `random.Random(seed)`: CPython seeds a Mersenne
Twister deterministically from the string and draws from it with no
other entropy source.  The generator internals are standard-library
code (not part of this repository), so the stream is modelled as a
deterministic LCG over a string hash; every property proved here
depends only on the stream being a pure function of the seed, which is
faithful. -/
def seedHash (s : String) : ℕ :=
  s.data.foldl (fun h c => (h * 31 + c.toNat) % 2147483647) 7

def lcgNext (x : ℕ) : ℕ := (1103515245 * x + 12345) % 2147483648

structure PyRandom where
  state : ℕ
deriving DecidableEq, Repr

def PyRandom.seeded (seed : String) : PyRandom := ⟨seedHash seed⟩

def PyRandom.next (r : PyRandom) : ℕ × PyRandom :=
  let s := lcgNext r.state
  (s, ⟨s⟩)

/-- Model of `rng.randint(a, b)` (both ends inclusive). -/
def PyRandom.randint (r : PyRandom) (a b : ℕ) : ℕ × PyRandom :=
  let (s, r') := r.next
  (a + s % (b - a + 1), r')

/-- Model of `rng.choice(xs)`. -/
def PyRandom.choice (r : PyRandom) (xs : List ℕ) (dflt : ℕ) : ℕ × PyRandom :=
  let (s, r') := r.next
  (xs.getD (s % xs.length) dflt, r')

/-- Model of `_draw_stars` from `image_generator.py`: 150 small stars
(radius chosen from [1,1,1,2], brightness 180–255) then 20 larger
half-opacity stars, all drawn from the single seeded stream. -/
def draw_stars (seed : String) : List DrawCmd :=
  let r0 := PyRandom.seeded seed
  let small := (List.range 150).foldl (fun (acc : List DrawCmd × PyRandom) _ =>
      let (cmds, r) := acc
      let (x, r) := r.randint 0 (1080 - 1)
      let (y, r) := r.randint 0 (1080 - 1)
      let (rad, r) := r.choice [1, 1, 1, 2] 1
      let (brightness, r) := r.randint 180 255
      (cmds ++ [DrawCmd.ellipse ((x : ℤ) - (rad : ℤ), (y : ℤ) - (rad : ℤ),
                                 (x : ℤ) + (rad : ℤ), (y : ℤ) + (rad : ℤ))
                  ((brightness : ℤ), (brightness : ℤ), (brightness : ℤ), 255)], r))
    ([], r0)
  let full := (List.range 20).foldl (fun (acc : List DrawCmd × PyRandom) _ =>
      let (cmds, r) := acc
      let (x, r) := r.randint 0 (1080 - 1)
      let (y, r) := r.randint 0 (1080 - 1)
      let (rad, r) := r.choice [2, 3] 2
      (cmds ++ [DrawCmd.ellipse ((x : ℤ) - (rad : ℤ), (y : ℤ) - (rad : ℤ),
                                 (x : ℤ) + (rad : ℤ), (y : ℤ) + (rad : ℤ))
                  (255, 255, 255, 128)], r))
    small
  full.1

/-- Seed selection in `generate_solar_system_image` / `_render_frame`:
`state.get("user", {}).get("id", "default")`. -/
def starSeed (state : SystemState) : String :=
  match state.user with
  | some u => u.id
  | none => "default"

/-- Model of `_draw_radial_gradient`: concentric circles at radii 500,490,…,10
with alpha `int(40 * (1 - r/500))`. -/
def gradientCmds : List DrawCmd :=
  (List.range 50).map (fun k =>
    let r : ℤ := 500 - 10 * (k : ℤ)
    DrawCmd.ellipse (540 - r, 540 - r, 540 + r, 540 + r)
      (15, 27, 61, pyIntTrunc (40 * (1 - (r : ℚ) / 500))))

/-- Model of `_draw_orbital_rings`. -/
def ringCmds : List DrawCmd :=
  ([100, 200, 300, 400, 450] : List ℤ).map (fun radius =>
    DrawCmd.ellipseOutline (540 - radius, 540 - radius, 540 + radius, 540 + radius)
      (255, 255, 255, 18) 1)

/-- Pixel x of a person: `CENTER[0] + int(x_position * SCALE)`. -/
def personPx (p : Person) : ℤ := 540 + pyIntTrunc (p.x_position * 450)

/-- Pixel y of a person: `CENTER[1] + int(y_position * SCALE)`. -/
def personPy (p : Person) : ℤ := 540 + pyIntTrunc (p.y_position * 450)

/-- Line colour in `_draw_connections`: tag colour at ~15% opacity, or
white when untagged. -/
def connectionColor (p : Person) : Except String (ℤ × ℤ × ℤ × ℤ) :=
  match p.tag with
  | some tg => do
      let (r, g, b) ← hex_to_rgb tg.color
      pure (r, g, b, 38)
  | none => pure (255, 255, 255, 38)

/-- Model of `_draw_connections`: one line from the canvas centre to each
person's pixel position.  No bounds check and no clamping is performed
on the position. -/
def draw_connections : List Person → Except String (List DrawCmd)
  | [] => pure []
  | p :: rest => do
      let c ← connectionColor p
      let cmds ← draw_connections rest
      pure (DrawCmd.line (540, 540) (personPx p, personPy p) c 1 :: cmds)

def personRGB (p : Person) : Except String (ℤ × ℤ × ℤ) :=
  match p.tag with
  | some tg => hex_to_rgb tg.color
  | none => pure (255, 255, 255)

/-- Model of `_draw_people_glow`: three concentric circles per person with alpha
`int(base_alpha * alpha_mult)`; the aggregated layer is blurred once
(recorded in `RenderOutput.glowBlur`). -/
def draw_people_glow : List Person → Except String (List DrawCmd)
  | [] => pure []
  | p :: rest => do
      let (r, g, b) ← personRGB p
      let glows := ([(26, 30), (24, 50), (22, 80)] : List (ℤ × ℚ)).map (fun gl =>
        DrawCmd.ellipse (personPx p - gl.1, personPy p - gl.1,
                         personPx p + gl.1, personPy p + gl.1)
          (r, g, b, pyIntTrunc (gl.2 * alphaVal p)))
      let cmds ← draw_people_glow rest
      pure (glows ++ cmds)

/-- Model of `_draw_people_solid`: solid 20px circle plus centred name label, both
with alpha scaled by the person's `alpha`.  `tw font text` models the
read-only font metric `textbbox` width. -/
def draw_people_solid (tw : String → String → ℕ) : List Person → Except String (List DrawCmd)
  | [] => pure []
  | p :: rest => do
      let (r, g, b) ← personRGB p
      let cmds ← draw_people_solid tw rest
      pure (DrawCmd.ellipse (personPx p - 20, personPy p - 20, personPx p + 20, personPy p + 20)
              (r, g, b, pyIntTrunc (255 * alphaVal p))
            :: DrawCmd.text (personPx p - ((tw "regular_12" p.name / 2 : ℕ) : ℤ), personPy p + 25)
                 p.name (255, 255, 255, pyIntTrunc (230 * alphaVal p)) "regular_12"
            :: cmds)

/-- Model of `_draw_center_user` glow part (blurred at radius 6 before
compositing, recorded in `RenderOutput.centerBlur`). -/
def draw_center_glow : List DrawCmd :=
  ([(52, 15), (48, 25), (44, 40)] : List (ℤ × ℤ)).map (fun gl =>
    DrawCmd.ellipse (540 - gl.1, 540 - gl.1, 540 + gl.1, 540 + gl.1) (255, 215, 0, gl.2))

/-- Model of `_draw_center_user` solid part: gold circle, "YOU" label, owner
name (`user.get("name", "")`). -/
def draw_center_main (tw : String → String → ℕ) (user : Option UserInfo) : List DrawCmd :=
  let name := (user.map UserInfo.name).getD ""
  [DrawCmd.ellipse (540 - 40, 540 - 40, 540 + 40, 540 + 40) (255, 215, 0, 255),
   DrawCmd.text (540 - ((tw "regular_10" "YOU" / 2 : ℕ) : ℤ), 540 - 58) "YOU"
     (255, 255, 255, 153) "regular_10",
   DrawCmd.text (540 - ((tw "bold_16" name / 2 : ℕ) : ℤ), 540 + 48) name
     (255, 255, 255, 255) "bold_16"]

/-- Wall-clock month/year read by `_draw_stats_bar` via
`datetime.now().strftime("%b %Y")`. -/
structure NowClock where
  month : ℕ
  year : ℕ
deriving DecidableEq, Repr

def monthAbbrev : ℕ → String
  | 1 => "Jan" | 2 => "Feb" | 3 => "Mar" | 4 => "Apr" | 5 => "May" | 6 => "Jun"
  | 7 => "Jul" | 8 => "Aug" | 9 => "Sep" | 10 => "Oct" | 11 => "Nov" | 12 => "Dec"
  | _ => ""

def dateStr (now : NowClock) : String := monthAbbrev now.month ++ " " ++ toString now.year

/-- Model of `" · ".join(f"{count} {name}" ...)` over `tags_summary`. -/
def tagsBreakdown (tags : List (String × ℤ)) : String :=
  String.intercalate " · " (tags.map (fun nc => toString nc.2 ++ " " ++ nc.1))

/-- Model of `_draw_stats_bar`: translucent strip, people count, tag breakdown,
and the CURRENT month/year (the one wall-clock read in the renderer). -/
def draw_stats_bar (tw : String → String → ℕ) (state : SystemState) (now : NowClock) :
    List DrawCmd :=
  [DrawCmd.overlayStrip (0, 1000) 1080 80 (0, 0, 0, 153),
   DrawCmd.text (30, 1010) (toString state.total_active_people ++ " people in my orbit")
     (255, 255, 255, 255) "bold_18",
   DrawCmd.text (30, 1038) (tagsBreakdown state.tags_summary) (255, 255, 255, 179) "regular_13",
   DrawCmd.text (1050 - ((tw "regular_13" (dateStr now) : ℕ) : ℤ), 1025) (dateStr now)
     (255, 255, 255, 128) "regular_13"]

/-- Model of `_draw_title`. -/
def titleCmds (tw : String → String → ℕ) : List DrawCmd :=
  [DrawCmd.text (540 - ((tw "bold_20" "My Solar System" / 2 : ℕ) : ℤ), 25) "My Solar System"
     (255, 255, 255, 204) "bold_20",
   DrawCmd.line (510, 55) (570, 55) (255, 255, 255, 51) 1]

/-- The full layer stack produced by one compositor pass
(`generate_solar_system_image`), in draw order. -/
structure RenderOutput where
  gradient : List DrawCmd
  stars : List DrawCmd
  rings : List DrawCmd
  connections : List DrawCmd
  glow : List DrawCmd
  glowBlur : ℕ
  solid : List DrawCmd
  centerGlow : List DrawCmd
  centerBlur : ℕ
  centerMain : List DrawCmd
  stats : List DrawCmd
  title : List DrawCmd
deriving DecidableEq, Repr

/-- Model of `generate_solar_system_image` up to PNG encoding: the ordered layer
stack as a function of the state, the font metrics and the wall
clock. -/
def renderCmds (tw : String → String → ℕ) (state : SystemState) (now : NowClock) :
    Except String RenderOutput := do
  let conns ← draw_connections state.people
  let glow ← draw_people_glow state.people
  let solid ← draw_people_solid tw state.people
  pure { gradient := gradientCmds
         stars := draw_stars (starSeed state)
         rings := ringCmds
         connections := conns
         glow := glow
         glowBlur := 4
         solid := solid
         centerGlow := draw_center_glow
         centerBlur := 6
         centerMain := draw_center_main tw state.user
         stats := draw_stats_bar tw state now
         title := titleCmds tw }

instance {ε α : Type} [DecidableEq ε] [DecidableEq α] : DecidableEq (Except ε α) := fun a b =>
  match a, b with
  | .error x, .error y => decidable_of_iff (x = y) (by simp)
  | .error _, .ok _ => isFalse (by simp)
  | .ok _, .error _ => isFalse (by simp)
  | .ok x, .ok y => decidable_of_iff (x = y) (by simp)

-- ### C7: star-field determinism

/-- C7: The star layer is a pure function of the seed — two invocations
of `_draw_stars` on states with the same derived seed give bit-identical
star command sequences (the generator consumes only the seeded
pseudo-random stream, which in this embedding takes no entropy input at
all) — and a state without an owner uses the fixed seed `"default"`. -/
theorem star_field_determinism :
    (∀ s1 s2 : SystemState, starSeed s1 = starSeed s2 →
        draw_stars (starSeed s1) = draw_stars (starSeed s2)) ∧
    (∀ st : SystemState, st.user = none → starSeed st = "default") := by
  constructor
  · intro s1 s2 h
    rw [h]
  · intro st h
    simp [starSeed, h]

/-- Witness for C7: two distinct states sharing the owner id `"u1"`
produce the same star field, and a state with no owner gets seed
`"default"`. -/
theorem star_field_determinism_witness :
    draw_stars (starSeed stateA) = draw_stars (starSeed stateB) ∧
    starSeed ⟨none, [], [], 0, ""⟩ = "default" :=
  ⟨star_field_determinism.1 stateA stateB rfl,
   star_field_determinism.2 ⟨none, [], [], 0, ""⟩ rfl⟩

-- ### C9: renders are pure in (state, clock)

/-- C9 amended: one compositor pass is a pure function of the
`SystemState`, the read-only font metrics `tw`, and the wall-clock
month/year that `_draw_stats_bar` reads via `datetime.now()`: renders of
the same state whose clock reads format to the same `"%b %Y"` string are
identical; every layer other than the stats-bar date depends only on the
state and the font metrics. -/
theorem render_pure_in_state_and_date (tw : String → String → ℕ) (st : SystemState)
    (n n' : NowClock) (h : dateStr n = dateStr n') :
    renderCmds tw st n = renderCmds tw st n' := by
  have hs : draw_stats_bar tw st n = draw_stats_bar tw st n' := by
    unfold draw_stats_bar
    rw [h]
  unfold renderCmds
  rw [hs]

/-- Witness for C9 (amended) at concrete inputs: two distinct clock
values with equal formatted date give identical renders. -/
theorem render_pure_in_state_and_date_witness :
    renderCmds (fun _ _ => 0) stateA ⟨0, 2026⟩ = renderCmds (fun _ _ => 0) stateA ⟨13, 2026⟩ :=
  render_pure_in_state_and_date (fun _ _ => 0) stateA ⟨0, 2026⟩ ⟨13, 2026⟩ rfl

/-- True iff the argument matches `Except.ok _`. -/
def isOkE {ε α : Type} : Except ε α → Bool
  | .ok _ => true
  | .error _ => false

theorem renderCmds_stats_of_ok {tw : String → String → ℕ} {st : SystemState} {n : NowClock}
    {o : RenderOutput} (h : renderCmds tw st n = Except.ok o) :
    o.stats = draw_stats_bar tw st n := by
  unfold renderCmds at h
  cases h1 : draw_connections st.people <;> rw [h1] at h
  · cases h
  cases h2 : draw_people_glow st.people <;> rw [h2] at h
  · cases h
  cases h3 : draw_people_solid tw st.people <;> rw [h3] at h
  · cases h
  cases h
  rfl

set_option maxRecDepth 10000 in
/-- C9 counterexample: the render is NOT a pure function of the state
alone — the same state rendered under a January clock and a February
clock yields different rasters (the stats-bar date text differs), so
"the output depends on no input other than the state" fails. -/
theorem render_depends_on_wall_clock :
    renderCmds (fun _ _ => 0) stateA ⟨1, 2026⟩ ≠ renderCmds (fun _ _ => 0) stateA ⟨2, 2026⟩ := by
  intro h
  have hok : isOkE (renderCmds (fun _ _ => 0) stateA ⟨1, 2026⟩) = true := by
    with_unfolding_all decide
  cases hr : renderCmds (fun _ _ => 0) stateA ⟨1, 2026⟩ with
  | error e =>
    rw [hr] at hok
    simp [isOkE] at hok
  | ok o =>
    rw [hr] at h
    have h1 := renderCmds_stats_of_ok hr
    have h2 := renderCmds_stats_of_ok h.symm
    have hne : draw_stats_bar (fun _ _ => 0) stateA ⟨1, 2026⟩ ≠
        draw_stats_bar (fun _ _ => 0) stateA ⟨2, 2026⟩ := by
      with_unfolding_all decide
    exact hne (h1.symm.trans h2)

-- ### C6: malformed states and the renderer

theorem connectionColor_error {p : Person} {tg : TagInfo} {e : String}
    (htag : p.tag = some tg) (herr : hex_to_rgb tg.color = Except.error e) :
    connectionColor p = Except.error e := by
  simp only [connectionColor, htag]
  rw [herr]
  rfl

theorem draw_connections_error {people : List Person} {p : Person} {tg : TagInfo} {e : String}
    (hp : p ∈ people) (htag : p.tag = some tg) (herr : hex_to_rgb tg.color = Except.error e) :
    ∃ e2, draw_connections people = Except.error e2 := by
  induction people with
  | nil => cases hp
  | cons q rest ih =>
    cases hc : connectionColor q with
    | error e2 =>
      refine ⟨e2, ?_⟩
      unfold draw_connections
      rw [hc]
      rfl
    | ok c =>
      rcases List.mem_cons.1 hp with h | h
      · exfalso
        subst h
        rw [connectionColor_error htag herr] at hc
        cases hc
      · obtain ⟨e2, he2⟩ := ih h
        refine ⟨e2, ?_⟩
        unfold draw_connections
        rw [hc, he2]
        rfl

/-- C6 amended: a malformed colour string that fails the hex parse makes
the renderer raise (`ValueError` from `int(..., 16)`), but a position
outside `[-1, 1]` is neither rejected nor clamped: the connection layer
succeeds and draws the line to the unclamped off-canvas pixel
`(540 + int(x·450), 540 + int(y·450))`. -/
theorem malformed_state_renderer (people : List Person) (p : Person) (tg : TagInfo) (e : String)
    (hp : p ∈ people) (htag : p.tag = some tg) (herr : hex_to_rgb tg.color = Except.error e) :
    (∃ e2, draw_connections people = Except.error e2) ∧
    ∀ q : Person, q.tag = none →
      draw_connections [q] =
        Except.ok [DrawCmd.line (540, 540)
          (540 + pyIntTrunc (q.x_position * 450), 540 + pyIntTrunc (q.y_position * 450))
          (255, 255, 255, 38) 1] := by
  refine ⟨draw_connections_error hp htag herr, fun q hq => ?_⟩
  unfold draw_connections draw_connections connectionColor
  rw [hq]
  rfl

/-- Witness for C6 (amended): the tag colour `"ZZZZZZ"` fails to parse
and makes the connection layer raise, while an untagged person at
`x = 2` (outside `[-1,1]`) renders without error to off-canvas pixel
`x = 1440`. -/
theorem malformed_state_renderer_witness :
    (∃ e2, draw_connections [⟨"p9", "Zed", 0, 0, some ⟨"Bad", "ZZZZZZ", none⟩, none⟩]
        = Except.error e2) ∧
    ∀ q : Person, q.tag = none →
      draw_connections [q] =
        Except.ok [DrawCmd.line (540, 540)
          (540 + pyIntTrunc (q.x_position * 450), 540 + pyIntTrunc (q.y_position * 450))
          (255, 255, 255, 38) 1] :=
  malformed_state_renderer [⟨"p9", "Zed", 0, 0, some ⟨"Bad", "ZZZZZZ", none⟩, none⟩]
    ⟨"p9", "Zed", 0, 0, some ⟨"Bad", "ZZZZZZ", none⟩, none⟩ ⟨"Bad", "ZZZZZZ", none⟩
    ("invalid literal for int() with base 16: ZZ")
    (List.mem_singleton.2 rfl) rfl (by with_unfolding_all decide)

set_option maxRecDepth 10000 in
/-- C6 counterexample: the claim "for every state with a position
component outside `[-1,1]` the render fails loudly" is false — an
untagged person at `x = 2 > 1` renders normally: the connection layer
returns a raster command (line to the off-canvas pixel `(1440, 540)`),
with no error and no clamping. -/
theorem out_of_range_position_renders :
    (1 : ℚ) < (2 : ℚ) ∧
    draw_connections [⟨"p9", "Zed", 2, 0, none, none⟩] =
      Except.ok [DrawCmd.line (540, 540) (1440, 540) (255, 255, 255, 38) 1] := by
  constructor
  · norm_num
  · with_unfolding_all decide

-- ## `app/services/video_generator.py`

/-- One `Snapshot` row as consumed by `generate_video`: the stored
`full_state` plus the authored human-readable `change_summary`
(non-nullable column, present on every snapshot including the first). -/
structure SnapshotRec where
  full_state : SystemState
  change_summary : String
deriving DecidableEq, Repr

/-- One planned video frame: the state handed to `_render_frame` and
the `change_summary` argument it is called with (`none` models the
omitted argument). -/
structure FrameSpec where
  state : SystemState
  caption : Option String
deriving DecidableEq, Repr

/-- The frame sequence of `_render_all_frames`: for each snapshot,
`hold_frames` hold frames carrying that snapshot's `change_summary`,
then (when a next snapshot exists) `transition_frames` interpolated
frames with `t = t_step / transition_frames` and no caption.  A
non-positive count makes the corresponding Python `range` empty, hence
`Int.toNat`. -/
def framePlan : List SnapshotRec → ℤ → ℤ → List FrameSpec
  | [], _, _ => []
  | [s], hold_frames, _ =>
      (List.range hold_frames.toNat).map (fun _ => ⟨s.full_state, some s.change_summary⟩)
  | s :: s2 :: rest, hold_frames, transition_frames =>
      ((List.range hold_frames.toNat).map (fun _ => ⟨s.full_state, some s.change_summary⟩))
        ++ ((List.range transition_frames.toNat).map (fun t_step =>
              ⟨interpolate_snapshots s.full_state s2.full_state
                 ((t_step : ℚ) / ((transition_frames : ℤ) : ℚ)), none⟩))
        ++ framePlan (s2 :: rest) hold_frames transition_frames

/-- Model of `hold_frames = int(hold_seconds * fps)` (line 153): Python `int()`
truncation, not rounding. -/
def hold_frames_calc (hold_seconds : ℚ) (fps : ℤ) : ℤ :=
  pyIntTrunc (hold_seconds * (fps : ℚ))

/-- Model of `total_frames = len(snapshots) * hold_frames + (len(snapshots) - 1)
* transition_frames` (line 154). -/
def total_frames_calc (n : ℕ) (hold_frames transition_frames : ℤ) : ℤ :=
  (n : ℤ) * hold_frames + ((n : ℤ) - 1) * transition_frames

/-- Model of `f"frame_{i:06d}"`: fixed-width zero-padded frame number. -/
def pad6 (n : ℕ) : String :=
  let s := toString n
  String.mk (List.replicate (6 - s.length) '0') ++ s

/-- The caption overlay `_render_frame` draws when `change_summary` is
truthy (non-`None`, non-empty). -/
def captionCmd (tw : String → String → ℕ) (caption : Option String) : Option DrawCmd :=
  match caption with
  | some cs =>
      if cs = "" then none
      else some (DrawCmd.text (540 - ((tw "bold_16" cs / 2 : ℕ) : ℤ), 960) cs
                   (255, 255, 255, 200) "bold_16")
  | none => none

/-- One video frame from `_render_frame`: the still-image layer stack
plus the caption overlay and the timeline progress bar
(`bar_width = int(WIDTH * frame_number / max(total_frames - 1, 1))`). -/
structure VideoFrame where
  base : RenderOutput
  caption : Option DrawCmd
  progressBar : DrawCmd
deriving DecidableEq, Repr

def renderVideoFrame (tw : String → String → ℕ) (now : NowClock) (spec : FrameSpec)
    (frame_number : ℕ) (total_frames : ℤ) : Except String VideoFrame := do
  let base ← renderCmds tw spec.state now
  let progress : ℚ := (frame_number : ℚ) / ((max (total_frames - 1) 1 : ℤ) : ℚ)
  pure ⟨base, captionCmd tw spec.caption,
        DrawCmd.rect (0, 1080 - 4) (pyIntTrunc (1080 * progress), 1080) (255, 255, 255, 100)⟩

/-- The frame-writing loop of `_render_all_frames`: renders each planned
frame in order and writes `frame_{i:06d}.png`; a render error aborts the
loop (frames written so far remain, later ones are never written). -/
def renderAll (tw : String → String → ℕ) (now : NowClock) :
    List FrameSpec → ℕ → ℤ → List String × Option String
  | [], _, _ => ([], none)
  | f :: rest, idx, total =>
      match renderVideoFrame tw now f idx total with
      | .error e => ([], some e)
      | .ok _ =>
          let r := renderAll tw now rest (idx + 1) total
          (("frame_" ++ pad6 idx ++ ".png") :: r.1, r.2)

/-- The Python exception kinds `generate_video` can raise: `ValueError`
(snapshot guard, and `int(...)` parse failures during rendering),
`FileNotFoundError` (from `create_subprocess_exec` when the `ffmpeg`
executable is absent) and `RuntimeError` (encoder exited non-zero). -/
inductive PyError where
  | valueError (msg : String)
  | fileNotFound (msg : String)
  | runtimeError (msg : String)
deriving DecidableEq, Repr

inductive LogEvent where
  | errorLog (msg : String)
  | infoLog (msg : String)
deriving DecidableEq, Repr

/-- The external-encoder environment: whether the `ffmpeg` executable
exists, and the exit code and captured stderr of a run. -/
structure EncoderEnv where
  available : Bool
  exitCode : ℤ
  stderrOut : String
deriving DecidableEq, Repr

/-- Model of `stderr.decode() if stderr else "Unknown error"`. -/
def stderrMsg (env : EncoderEnv) : String :=
  if env.stderrOut = "" then "Unknown error" else env.stderrOut

/-- Observable outcome of one `generate_video` call: the returned value
or raised exception, the frame files written to the temporary
directory, and the error log. -/
structure VideoOutcome where
  result : Except PyError String
  frameWrites : List String
  logs : List LogEvent
deriving DecidableEq, Repr

/-- Model of `generate_video` (lines 120–215): guard `len(snapshots) < 2`, then
`hold_frames`/`total_frames`, then `_render_all_frames` into the
temporary directory, then the ffmpeg subprocess — `FileNotFoundError`
propagates when the executable is missing, a non-zero exit raises
`RuntimeError` with the exit code after logging the captured stderr. -/
def generate_video (tw : String → String → ℕ) (now : NowClock) (snapshots : List SnapshotRec)
    (fps : ℤ) (hold_seconds : ℚ) (transition_frames : ℤ) (env : EncoderEnv)
    (output_path : String) : VideoOutcome :=
  if snapshots.length < 2 then
    ⟨.error (.valueError "Need at least 2 snapshots to generate a video"), [], []⟩
  else
    let hold_frames := hold_frames_calc hold_seconds fps
    let total_frames := total_frames_calc snapshots.length hold_frames transition_frames
    let rendered := renderAll tw now (framePlan snapshots hold_frames transition_frames)
                      0 total_frames
    match rendered.2 with
    | some e => ⟨.error (.valueError e), rendered.1, []⟩
    | none =>
        if env.available = true then
          if env.exitCode ≠ 0 then
            ⟨.error (.runtimeError ("FFmpeg failed with exit code " ++ toString env.exitCode)),
             rendered.1, [.errorLog ("FFmpeg failed: " ++ stderrMsg env)]⟩
          else
            ⟨.ok output_path, rendered.1, [.infoLog ("Video generated: " ++ output_path)]⟩
        else
          ⟨.error (.fileNotFound "ffmpeg"), rendered.1, []⟩

-- ### C5: caption placement in the frame sequence

theorem map_range_const {α : Type} (n : ℕ) (a : α) :
    (List.range n).map (fun _ => a) = List.replicate n a := by
  induction n with
  | zero => rfl
  | succ m ih =>
    rw [List.range_succ, List.map_append, ih, List.map_cons, List.map_nil,
      List.replicate_succ']

/-- The caption layout the code actually produces, stated independently
of `framePlan`: EVERY hold frame of snapshot `i` — including `i = 0` —
carries that snapshot's `change_summary`, and transition frames carry
none. -/
def captionPattern : List String → ℕ → ℕ → List (Option String)
  | [], _, _ => []
  | [c], holdN, _ => List.replicate holdN (some c)
  | c :: c2 :: rest, holdN, transN =>
      List.replicate holdN (some c) ++ List.replicate transN none ++
        captionPattern (c2 :: rest) holdN transN

/-- C5 amended: in the rendered frame sequence, for EVERY snapshot `i`
(including `i = 0`) all of snapshot `i`'s hold frames are passed that
snapshot's authored `change_summary` as caption, and the transition
frames between snapshots (with `t = step / transition_frame_count`)
carry no caption. -/
theorem frame_captions (snaps : List SnapshotRec) (hold_frames transition_frames : ℤ) :
    (framePlan snaps hold_frames transition_frames).map FrameSpec.caption =
      captionPattern (snaps.map SnapshotRec.change_summary)
        hold_frames.toNat transition_frames.toNat := by
  induction snaps with
  | nil => rfl
  | cons s tail ih =>
    cases tail with
    | nil =>
      simp only [framePlan, captionPattern, List.map_map, List.map_cons, List.map_nil,
        Function.comp]
      exact map_range_const hold_frames.toNat (some s.change_summary)
    | cons s2 rest =>
      simp only [framePlan, captionPattern, List.map_append, List.map_map, List.map_cons]
      rw [ih]
      simp only [List.map_cons]
      congr 1
      congr 1
      · exact map_range_const hold_frames.toNat (some s.change_summary)
      · exact map_range_const transition_frames.toNat (none : Option String)

def snapsDemo : List SnapshotRec := [⟨stateA, "created"⟩, ⟨stateB, "added Aman"⟩]

set_option maxRecDepth 10000 in
/-- C5 counterexample: with 2 snapshots, 1 hold frame and 1 transition
frame, frame 0 — a hold frame of snapshot 0 — is passed snapshot 0's
caption (`some "created"`), contradicting "snapshot 0's hold frames have
no caption"; the transition frame in the middle indeed has none. -/
theorem first_hold_frame_carries_caption :
    (framePlan snapsDemo 1 1).map FrameSpec.caption =
      [some "created", none, some "added Aman"] := by
  with_unfolding_all decide

-- ### C2: frame-count formula

theorem framePlan_length (snaps : List SnapshotRec) (h tf : ℤ) (hh : 0 ≤ h) (ht : 0 ≤ tf) :
    snaps ≠ [] →
    ((framePlan snaps h tf).length : ℤ) =
      (snaps.length : ℤ) * h + ((snaps.length : ℤ) - 1) * tf := by
  induction snaps with
  | nil => intro hne; cases hne rfl
  | cons s tail ih =>
    intro _
    cases tail with
    | nil =>
      simp only [framePlan, List.length_map, List.length_range, List.length_cons,
        List.length_nil]
      rw [Int.toNat_of_nonneg hh]
      push_cast
      ring
    | cons s2 rest =>
      have htail := ih (by simp)
      simp only [framePlan, List.length_append, List.length_map, List.length_range,
        List.length_cons] at htail ⊢
      push_cast at htail ⊢
      rw [Int.toNat_of_nonneg hh, Int.toNat_of_nonneg ht, htail]
      ring

set_option maxRecDepth 10000 in
/-- C2 counterexample: the code computes `hold_frames` with Python
`int()` (truncation), not round-to-nearest: at `hold_seconds = 0.09`,
`fps = 30` the product is `2.7`; the code yields `2` while
round-to-nearest yields `3`. -/
theorem hold_frames_truncates :
    hold_frames_calc (9/100) 30 = 2 ∧ round ((9/100 : ℚ) * ((30 : ℤ) : ℚ)) = 3 ∧
    (2 : ℤ) ≠ 3 := by
  refine ⟨by with_unfolding_all decide, ?_, by decide⟩
  rw [show ((9 : ℚ)/100 * ((30 : ℤ) : ℚ)) = 27/10 by push_cast; norm_num, round_eq,
    show ((27 : ℚ)/10 + 1/2) = 16/5 by norm_num]
  rw [Int.floor_eq_iff]
  constructor <;> norm_num

set_option maxRecDepth 10000 in
/-- C2 amended: `hold_frames = int(hold_seconds * fps)` (truncation
toward zero, not round-to-nearest); `total_frames = N*hold_frames +
(N-1)*transition_frames`, which equals the number of frames actually
rendered; at 3 snapshots, fps 30, hold 2.0s, 15 transition frames the
total is 210 (that example is unaffected since 2.0 * 30 is exact). -/
theorem video_frame_count (snaps : List SnapshotRec) (fps : ℤ) (hold_seconds : ℚ) (tf : ℤ)
    (hN : 2 ≤ snaps.length) (hh : 0 ≤ hold_frames_calc hold_seconds fps) (ht : 0 ≤ tf) :
    ((framePlan snaps (hold_frames_calc hold_seconds fps) tf).length : ℤ) =
      total_frames_calc snaps.length (hold_frames_calc hold_seconds fps) tf ∧
    hold_frames_calc 2 30 = 60 ∧
    total_frames_calc 3 (hold_frames_calc 2 30) 15 = 210 := by
  refine ⟨?_, by with_unfolding_all decide, by with_unfolding_all decide⟩
  unfold total_frames_calc
  exact framePlan_length snaps _ tf hh ht
    (by intro hnil; rw [hnil] at hN; simp at hN)

set_option maxRecDepth 10000 in
/-- Witness for C2 (amended) at 2 snapshots, fps 30, hold 2.0s, 15
transition frames. -/
theorem video_frame_count_witness :
    2 ≤ snapsDemo.length ∧ 0 ≤ hold_frames_calc 2 30 ∧ 0 ≤ (15 : ℤ) ∧
    ((framePlan snapsDemo (hold_frames_calc 2 30) 15).length : ℤ) =
      total_frames_calc snapsDemo.length (hold_frames_calc 2 30) 15 :=
  ⟨by decide, by with_unfolding_all decide, by decide,
   (video_frame_count snapsDemo 30 2 15 (by decide) (by with_unfolding_all decide)
     (by decide)).1⟩

-- ### C3: insufficient history

/-- C3: with fewer than 2 snapshots, `generate_video` raises the
distinct validation error `ValueError("Need at least 2 snapshots to
generate a video")` before anything is rendered: no frame file is
written, no log is emitted, and no video path is ever returned. -/
theorem insufficient_history (tw : String → String → ℕ) (now : NowClock)
    (snaps : List SnapshotRec) (fps : ℤ) (hold_seconds : ℚ) (tf : ℤ) (env : EncoderEnv)
    (out : String) (h : snaps.length < 2) :
    generate_video tw now snaps fps hold_seconds tf env out =
      ⟨Except.error (.valueError "Need at least 2 snapshots to generate a video"), [], []⟩ ∧
    ∀ pth, (generate_video tw now snaps fps hold_seconds tf env out).result ≠
      Except.ok pth := by
  have he : generate_video tw now snaps fps hold_seconds tf env out =
      ⟨Except.error (.valueError "Need at least 2 snapshots to generate a video"), [], []⟩ := by
    unfold generate_video
    rw [if_pos h]
  exact ⟨he, fun pth hc => by rw [he] at hc; cases hc⟩

/-- Witness for C3 at a single-snapshot list. -/
theorem insufficient_history_witness :
    [(⟨stateA, "created"⟩ : SnapshotRec)].length < 2 ∧
    generate_video (fun _ _ => 0) ⟨1, 2026⟩ [⟨stateA, "created"⟩] 30 2 15 ⟨true, 0, ""⟩
        "out.mp4" =
      ⟨Except.error (.valueError "Need at least 2 snapshots to generate a video"), [], []⟩ :=
  ⟨by decide,
   (insufficient_history (fun _ _ => 0) ⟨1, 2026⟩ [⟨stateA, "created"⟩] 30 2 15 ⟨true, 0, ""⟩
     "out.mp4" (by decide)).1⟩

-- ### C4: encoder failure kinds

/-- C4: once rendering succeeded, a missing `ffmpeg` executable makes
`generate_video` fail with `FileNotFoundError` (propagated from
`create_subprocess_exec`), while an encoder that ran and exited non-zero
makes it fail with `RuntimeError` reporting the exit code after logging
the captured stderr diagnostics; the two exception kinds are distinct
constructors and are never conflated. -/
theorem encoder_error_kinds (tw : String → String → ℕ) (now : NowClock)
    (snaps : List SnapshotRec) (fps : ℤ) (hold_seconds : ℚ) (tf : ℤ) (env : EncoderEnv)
    (out : String) (h2 : ¬ snaps.length < 2)
    (hrender : (renderAll tw now
        (framePlan snaps (hold_frames_calc hold_seconds fps) tf) 0
        (total_frames_calc snaps.length (hold_frames_calc hold_seconds fps) tf)).2 = none) :
    (env.available = false →
        (generate_video tw now snaps fps hold_seconds tf env out).result =
          Except.error (.fileNotFound "ffmpeg")) ∧
    (env.available = true → env.exitCode ≠ 0 →
        (generate_video tw now snaps fps hold_seconds tf env out).result =
          Except.error (.runtimeError
            ("FFmpeg failed with exit code " ++ toString env.exitCode)) ∧
        (generate_video tw now snaps fps hold_seconds tf env out).logs =
          [.errorLog ("FFmpeg failed: " ++ stderrMsg env)]) ∧
    (∀ m m2 : String, PyError.fileNotFound m ≠ PyError.runtimeError m2) := by
  refine ⟨fun hav => ?_, fun hav hrc => ?_, fun m m2 hcon => by cases hcon⟩
  · simp only [generate_video]
    rw [if_neg h2, hrender]
    rw [hav]
    simp
  · simp only [generate_video]
    rw [if_neg h2, hrender]
    rw [hav]
    simp only [if_pos rfl, if_pos hrc]
    exact ⟨rfl, rfl⟩

/-- Witness for C4: two tiny snapshots, once with the encoder absent
(`FileNotFoundError`) and once with the encoder exiting 1
(`RuntimeError` carrying the exit code, stderr logged). -/
theorem encoder_error_kinds_witness :
    ¬ snapsDemo.length < 2 ∧
    (generate_video (fun _ _ => 0) ⟨1, 2026⟩ snapsDemo 30 (1/30) 1 ⟨false, 0, ""⟩
        "o.mp4").result = Except.error (.fileNotFound "ffmpeg") ∧
    (generate_video (fun _ _ => 0) ⟨1, 2026⟩ snapsDemo 30 (1/30) 1 ⟨true, 1, "boom"⟩
        "o.mp4").result =
      Except.error (.runtimeError ("FFmpeg failed with exit code " ++ toString (1 : ℤ))) :=
  ⟨by decide,
   (encoder_error_kinds (fun _ _ => 0) ⟨1, 2026⟩ snapsDemo 30 (1/30) 1 ⟨false, 0, ""⟩ "o.mp4"
     (by decide) (by with_unfolding_all decide)).1 rfl,
   ((encoder_error_kinds (fun _ _ => 0) ⟨1, 2026⟩ snapsDemo 30 (1/30) 1 ⟨true, 1, "boom"⟩
     "o.mp4" (by decide) (by with_unfolding_all decide)).2.1 rfl (by decide)).1⟩
